import Mathlib

/-!
Shallow embedding of `src/backend.rs` from the `koit` crate: the `Backend`
contract with its three implementations (`Memory`, `File`, `FilePath`).

The filesystem is modelled as an association list from paths to file states;
every OS call (`open`, `seek`, `read_to_end`, `write_all`, `set_len`,
`sync_all`, `rename`, implicit close-on-drop) is an explicit state transition
on a `World` carrying the filesystem, a trace of attempted calls, and a call
counter. An `Env` maps call indices to optionally injected transient OS
errors, so that failure of any individual call can be analysed; when no
error is injected a call behaves according to the filesystem state
(not-found, per-file permission errors).
-/

/-- Paths are strings, as in `std::path::PathBuf` restricted to valid UTF-8. -/
abbrev FPath := String

/-- Byte buffers (`Vec<u8>` in the source); bytes as naturals. -/
abbrev Bytes := List Nat

/-- Error kinds distinguished by the source (`std::io::ErrorKind`): the code
only ever inspects `NotFound`; the rest stand for the other kinds. -/
inductive ErrorKind
  | notFound
  | permissionDenied
  | interrupted
  | other
deriving DecidableEq, Repr

/-- Model of `std::io::Error`: just its kind. -/
structure IOErr where
  kind : ErrorKind
deriving DecidableEq, Repr

/-- State of one file on disk: its byte contents, and an optional error kind
with which every attempt to open this existing file fails (modelling
permissions and similar per-file conditions). -/
structure FileState where
  contents : Bytes
  openErr : Option ErrorKind
deriving DecidableEq, Repr

/-- Association-list lookup on filesystem entries. -/
def lookupEntries : List (FPath × FileState) → FPath → Option FileState
  | [], _ => none
  | e :: rest, p => if e.1 = p then some e.2 else lookupEntries rest p

/-- The filesystem: a finite map from paths to file states. -/
structure FS where
  entries : List (FPath × FileState)
deriving DecidableEq, Repr

def FS.lookup (fs : FS) (p : FPath) : Option FileState :=
  lookupEntries fs.entries p

/-- Association-list removal of every entry with the given key. -/
def eraseEntries : List (FPath × FileState) → FPath → List (FPath × FileState)
  | [], _ => []
  | e :: rest, p => if e.1 = p then eraseEntries rest p else e :: eraseEntries rest p

def FS.erase (fs : FS) (p : FPath) : FS :=
  ⟨eraseEntries fs.entries p⟩

def FS.insert (fs : FS) (p : FPath) (st : FileState) : FS :=
  ⟨(p, st) :: (fs.erase p).entries⟩

/-- Trace events: one per attempted OS call (the call need not succeed).
`openRW` = `OpenOptions::new().read(true).write(true).open`,
`openRWCreate` adds `.create(true)`, `openRead` = read-only open,
`openWCT` = `.write(true).create(true).truncate(true)`,
`closeF` = dropping the handle. -/
inductive Event
  | openRW (p : FPath)
  | openRWCreate (p : FPath)
  | openRead (p : FPath)
  | openWCT (p : FPath)
  | seekStart
  | setLen (n : Nat)
  | readToEnd
  | writeAll (data : Bytes)
  | syncAll
  | closeF (p : FPath)
  | renameF (src dst : FPath)
deriving DecidableEq, Repr

/-- The world: filesystem state, trace of attempted calls, call counter. -/
structure World where
  fs : FS
  trace : List Event
  ctr : Nat
deriving DecidableEq, Repr

/-- Environment of injected transient OS failures: `inj n = some k` makes the
`n`-th OS call fail with kind `k` regardless of filesystem state. -/
structure Env where
  inj : Nat → Option ErrorKind

/-- Environment injecting no failure: the OS behaves exactly as the
filesystem state dictates. -/
def envNone : Env := ⟨fun _ => none⟩

/-- Record an attempted call: append its event, advance the call counter. -/
def record (w : World) (e : Event) : World :=
  { w with trace := w.trace ++ [e], ctr := w.ctr + 1 }

/-- An open OS file handle: the path it refers to and its cursor position. -/
structure FileHandle where
  path : FPath
  pos : Nat
deriving DecidableEq, Repr

/-- Open with `.read(true).write(true)`: fails `NotFound` on an absent path,
fails with the file's open error if set, otherwise yields a handle at
position 0. -/
def openRW (env : Env) (w : World) (p : FPath) : Except IOErr FileHandle × World :=
  let w' := record w (Event.openRW p)
  match env.inj w.ctr with
  | some k => (.error ⟨k⟩, w')
  | none =>
    match w.fs.lookup p with
    | none => (.error ⟨ErrorKind.notFound⟩, w')
    | some st =>
      match st.openErr with
      | some k => (.error ⟨k⟩, w')
      | none => (.ok ⟨p, 0⟩, w')

/-- Open with `.read(true).write(true).create(true)`: creates an empty file
when the path is absent; on an existing path `create` is a no-op and the
open behaves like `openRW`. -/
def openRWCreate (env : Env) (w : World) (p : FPath) : Except IOErr FileHandle × World :=
  let w' := record w (Event.openRWCreate p)
  match env.inj w.ctr with
  | some k => (.error ⟨k⟩, w')
  | none =>
    match w.fs.lookup p with
    | none => (.ok ⟨p, 0⟩, { w' with fs := w'.fs.insert p ⟨[], none⟩ })
    | some st =>
      match st.openErr with
      | some k => (.error ⟨k⟩, w')
      | none => (.ok ⟨p, 0⟩, w')

/-- Open with `.read(true)` only: never creates, never modifies. -/
def openRead (env : Env) (w : World) (p : FPath) : Except IOErr FileHandle × World :=
  let w' := record w (Event.openRead p)
  match env.inj w.ctr with
  | some k => (.error ⟨k⟩, w')
  | none =>
    match w.fs.lookup p with
    | none => (.error ⟨ErrorKind.notFound⟩, w')
    | some st =>
      match st.openErr with
      | some k => (.error ⟨k⟩, w')
      | none => (.ok ⟨p, 0⟩, w')

/-- Open with `.write(true).create(true).truncate(true)`: creates an empty
file when absent, truncates when present and openable. -/
def openWCT (env : Env) (w : World) (p : FPath) : Except IOErr FileHandle × World :=
  let w' := record w (Event.openWCT p)
  match env.inj w.ctr with
  | some k => (.error ⟨k⟩, w')
  | none =>
    match w.fs.lookup p with
    | none => (.ok ⟨p, 0⟩, { w' with fs := w'.fs.insert p ⟨[], none⟩ })
    | some st =>
      match st.openErr with
      | some k => (.error ⟨k⟩, w')
      | none => (.ok ⟨p, 0⟩, { w' with fs := w'.fs.insert p ⟨[], none⟩ })

/-- Model of `seek(SeekFrom::Start(0))`: resets the cursor. -/
def seekStart (env : Env) (w : World) (h : FileHandle) : Except IOErr FileHandle × World :=
  let w' := record w Event.seekStart
  match env.inj w.ctr with
  | some k => (.error ⟨k⟩, w')
  | none => (.ok { h with pos := 0 }, w')

/-- Model of `set_len(n)`: truncates the file to at most `n` bytes. -/
def setLen (env : Env) (w : World) (h : FileHandle) (n : Nat) : Except IOErr Unit × World :=
  let w' := record w (Event.setLen n)
  match env.inj w.ctr with
  | some k => (.error ⟨k⟩, w')
  | none =>
    match w.fs.lookup h.path with
    | none => (.error ⟨ErrorKind.other⟩, w')
    | some st =>
      (.ok (), { w' with fs := w'.fs.insert h.path ⟨st.contents.take n, st.openErr⟩ })

/-- Model of `read_to_end`: returns the bytes from the cursor to end of file
and advances the cursor to end of file. -/
def readToEnd (env : Env) (w : World) (h : FileHandle) :
    Except IOErr (Bytes × FileHandle) × World :=
  let w' := record w Event.readToEnd
  match env.inj w.ctr with
  | some k => (.error ⟨k⟩, w')
  | none =>
    match w.fs.lookup h.path with
    | none => (.error ⟨ErrorKind.other⟩, w')
    | some st =>
      (.ok (st.contents.drop h.pos, { h with pos := max h.pos st.contents.length }), w')

/-- Model of `write_all(data)`: overwrites from the cursor onward, extending
the file as needed, and advances the cursor past the written bytes. -/
def writeAll (env : Env) (w : World) (h : FileHandle) (data : Bytes) :
    Except IOErr FileHandle × World :=
  let w' := record w (Event.writeAll data)
  match env.inj w.ctr with
  | some k => (.error ⟨k⟩, w')
  | none =>
    match w.fs.lookup h.path with
    | none => (.error ⟨ErrorKind.other⟩, w')
    | some st =>
      let newContents := st.contents.take h.pos ++ data ++ st.contents.drop (h.pos + data.length)
      (.ok { h with pos := h.pos + data.length },
       { w' with fs := w'.fs.insert h.path ⟨newContents, st.openErr⟩ })

/-- Model of `sync_all`: a durability barrier; changes no modelled state but
may fail transiently. -/
def syncAll (env : Env) (w : World) (h : FileHandle) : Except IOErr Unit × World :=
  let _ := h
  let w' := record w Event.syncAll
  match env.inj w.ctr with
  | some k => (.error ⟨k⟩, w')
  | none => (.ok (), w')

/-- Model of dropping a handle (`drop(f)` or end of scope): closing cannot
fail and is not an injectable OS call, so it only leaves a trace event. -/
def closeF (w : World) (h : FileHandle) : World :=
  { w with trace := w.trace ++ [Event.closeF h.path] }

/-- Model of `tokio::fs::rename(src, dst)`: atomically moves the file state
at `src` onto `dst`; fails `NotFound` when `src` is absent. -/
def renameF (env : Env) (w : World) (src dst : FPath) : Except IOErr Unit × World :=
  let w' := record w (Event.renameF src dst)
  match env.inj w.ctr with
  | some k => (.error ⟨k⟩, w')
  | none =>
    match w.fs.lookup src with
    | none => (.error ⟨ErrorKind.notFound⟩, w')
    | some st => (.ok (), { w' with fs := (w'.fs.insert dst st).erase src })

/-- Model of the `Memory` backend: `pub struct Memory(Vec<u8>)`. -/
structure Memory where
  data : Bytes
deriving DecidableEq, Repr

/-- Associated error type of the `Memory` backend:
`type Error = std::convert::Infallible`, an uninhabited type. -/
def Memory.Error : Type := Empty

/-- Model of `Memory::new`: `Self(Vec::new())`. -/
def Memory.new : Memory := ⟨[]⟩

/-- Model of `impl From<Vec<u8>> for Memory`: `Self(buf)`. -/
def Memory.fromBuf (buf : Bytes) : Memory := ⟨buf⟩

/-- Model of `Memory::take`: `std::mem::replace(&mut self.0, Vec::new())`,
returning the old contents and the updated backend. -/
def Memory.take (m : Memory) : Bytes × Memory := (m.data, ⟨[]⟩)

/-- Model of `<Memory as Backend>::read`: `Ok(self.0.clone())`. -/
def Memory.read (m : Memory) : Except Memory.Error Bytes × Memory :=
  (.ok m.data, m)

/-- Model of `<Memory as Backend>::write`: `Ok(self.0 = data)`. -/
def Memory.write (m : Memory) (data : Bytes) : Except Memory.Error Unit × Memory :=
  (.ok (), ⟨data⟩)

/-- Model of the `File` backend: `pub struct File(tokio::fs::File)`, one
handle held open for the backend's lifetime. -/
structure File where
  handle : FileHandle
deriving DecidableEq, Repr

/-- Model of `File::from_path`: open the path read+write, keep the handle. -/
def File.from_path (env : Env) (w : World) (path : FPath) :
    Except IOErr File × World :=
  match openRW env w path with
  | (.ok h, w') => (.ok ⟨h⟩, w')
  | (.error e, w') => (.error e, w')

/-- Model of `File::from_path_or_create`: try `from_path`; on an error of
kind `NotFound`, open with `create(true)` and report `false`; on success
report `true`; propagate any other error unchanged. -/
def File.from_path_or_create (env : Env) (w : World) (path : FPath) :
    Except IOErr (File × Bool) × World :=
  match File.from_path env w path with
  | (.ok f, w') => (.ok (f, true), w')
  | (.error err, w') =>
    match err.kind with
    | ErrorKind.notFound =>
      match openRWCreate env w' path with
      | (.ok h, w'') => (.ok (⟨h⟩, false), w'')
      | (.error e, w'') => (.error e, w'')
    | _ => (.error err, w')

/-- Model of `<File as Backend>::read`: seek to start, read to end. The
updated backend (its handle cursor moved) is returned alongside. -/
def File.read (env : Env) (w : World) (f : File) :
    Except IOErr Bytes × File × World :=
  match seekStart env w f.handle with
  | (.error e, w1) => (.error e, f, w1)
  | (.ok h1, w1) =>
    match readToEnd env w1 h1 with
    | (.error e, w2) => (.error e, ⟨h1⟩, w2)
    | (.ok (buf, h2), w2) => (.ok buf, ⟨h2⟩, w2)

/-- Model of `<File as Backend>::write`: seek to start, `set_len(0)`,
`write_all(data)`, `sync_all`. -/
def File.write (env : Env) (w : World) (f : File) (data : Bytes) :
    Except IOErr Unit × File × World :=
  match seekStart env w f.handle with
  | (.error e, w1) => (.error e, f, w1)
  | (.ok h1, w1) =>
    match setLen env w1 h1 0 with
    | (.error e, w2) => (.error e, ⟨h1⟩, w2)
    | (.ok _, w2) =>
      match writeAll env w2 h1 data with
      | (.error e, w3) => (.error e, ⟨h1⟩, w3)
      | (.ok h2, w3) =>
        match syncAll env w3 h2 with
        | (.error e, w4) => (.error e, ⟨h2⟩, w4)
        | (.ok _, w4) => (.ok (), ⟨h2⟩, w4)

/-- Model of the `FilePath` backend: `pub struct FilePath(PathBuf)`; only the
path is retained, no open handle. -/
structure FilePath where
  path : FPath
deriving DecidableEq, Repr

/-- Model of `FilePath::from_path`: open the path read+write as a probe,
immediately drop the handle, retain the path. -/
def FilePath.from_path (env : Env) (w : World) (path : FPath) :
    Except IOErr FilePath × World :=
  match openRW env w path with
  | (.error e, w') => (.error e, w')
  | (.ok h, w') => (.ok ⟨path⟩, closeF w' h)

/-- Model of `FilePath::from_path_or_create`: probe-open the path read+write
and set `exists = f.is_ok()`; drop the probe; if not `exists`, open with
`create(true)` (propagating that second attempt's error) and drop; finally
return the backend together with the `exists` flag. Note the source tests
only `is_ok`, never the error kind. -/
def FilePath.from_path_or_create (env : Env) (w : World) (path : FPath) :
    Except IOErr (FilePath × Bool) × World :=
  match openRW env w path with
  | (.ok h, w1) => (.ok (⟨path⟩, true), closeF w1 h)
  | (.error _, w1) =>
    match openRWCreate env w1 path with
    | (.error e, w2) => (.error e, w2)
    | (.ok h, w2) => (.ok (⟨path⟩, false), closeF w2 h)

/-- Model of `<FilePath as Backend>::read`: open read-only, read to end, the
handle is dropped when the function returns (also on the error path). -/
def FilePath.read (env : Env) (w : World) (fp : FilePath) :
    Except IOErr Bytes × World :=
  match openRead env w fp.path with
  | (.error e, w1) => (.error e, w1)
  | (.ok h, w1) =>
    match readToEnd env w1 h with
    | (.error e, w2) => (.error e, closeF w2 h)
    | (.ok (buf, h2), w2) => (.ok buf, closeF w2 h2)

/-- Temporary sibling path used by `FilePath::write`:
`tmp_name.as_mut_os_string().push(".tmp")`. -/
def tmpPath (p : FPath) : FPath := p ++ ".tmp"

/-- Model of `<FilePath as Backend>::write`: open the `.tmp` sibling with
write+create+truncate, `write_all(data)`, `sync_all`, drop the handle, then
`rename` the temporary over the target. On the `write_all`/`sync_all` error
paths the handle is still dropped when the early return fires. -/
def FilePath.write (env : Env) (w : World) (fp : FilePath) (data : Bytes) :
    Except IOErr Unit × World :=
  match openWCT env w (tmpPath fp.path) with
  | (.error e, w1) => (.error e, w1)
  | (.ok h, w1) =>
    match writeAll env w1 h data with
    | (.error e, w2) => (.error e, closeF w2 h)
    | (.ok h2, w2) =>
      match syncAll env w2 h2 with
      | (.error e, w3) => (.error e, closeF w3 h2)
      | (.ok _, w3) =>
        match renameF env (closeF w3 h2) (tmpPath fp.path) fp.path with
        | (.error e, w4) => (.error e, w4)
        | (.ok _, w4) => (.ok (), w4)

/-! Concrete fixtures used by counterexamples and witnesses. -/

/-- World with an empty filesystem. -/
def wEmpty : World := ⟨⟨[]⟩, [], 0⟩

/-- World with one openable file `"db"` holding bytes `[1, 2, 3]`. -/
def wOne : World := ⟨⟨[("db", ⟨[1, 2, 3], none⟩)]⟩, [], 0⟩

/-- World where `"db"` exists but every open of it is denied. -/
def wDenied : World := ⟨⟨[("db", ⟨[7], some ErrorKind.permissionDenied⟩)]⟩, [], 0⟩

/-- Environment injecting a transient `Interrupted` failure into the very
first OS call only. -/
def envInterrupt : Env := ⟨fun n => if n = 0 then some ErrorKind.interrupted else none⟩

/-- Success conditions of `FilePath::write`'s protocol: no injected failure
at any of its four injectable OS calls (temporary open, write, sync, rename)
and, when the temporary path already exists, it is openable. -/
def writeOkConds (env : Env) (w : World) (fp : FilePath) : Prop :=
  env.inj w.ctr = none ∧
  (∀ st, w.fs.lookup (tmpPath fp.path) = some st → st.openErr = none) ∧
  env.inj (w.ctr + 1) = none ∧ env.inj (w.ctr + 2) = none ∧
  env.inj (w.ctr + 3) = none

/-- The five calls of the atomic replace protocol, in the order the source
makes them. -/
def protocolEvents (fp : FilePath) (data : Bytes) : List Event :=
  [Event.openWCT (tmpPath fp.path), Event.writeAll data, Event.syncAll,
   Event.closeF (tmpPath fp.path), Event.renameF (tmpPath fp.path) fp.path]

/-- Filesystem after a successful `FilePath::write`: the temporary sibling is
created empty, filled with `data`, its state moved onto the target, and the
temporary entry removed. -/
def writeFinalFS (w : World) (fp : FilePath) (data : Bytes) : FS :=
  (((w.fs.insert (tmpPath fp.path) ⟨[], none⟩).insert (tmpPath fp.path)
      ⟨data, none⟩).insert fp.path ⟨data, none⟩).erase (tmpPath fp.path)

/-! Helper lemmas about the filesystem map and the primitive calls. -/

theorem lookupEntries_erase_ne (l : List (FPath × FileState)) (p q : FPath)
    (hne : q ≠ p) :
    lookupEntries (eraseEntries l p) q = lookupEntries l q := by
  induction l with
  | nil => simp [lookupEntries, eraseEntries]
  | cons e rest ih =>
    obtain ⟨a, st⟩ := e
    by_cases hep : a = p
    · subst hep
      simp [eraseEntries, lookupEntries, Ne.symm hne, ih]
    · simp [eraseEntries, hep, lookupEntries, ih]

theorem lookupEntries_erase_self (l : List (FPath × FileState)) (p : FPath) :
    lookupEntries (eraseEntries l p) p = none := by
  induction l with
  | nil => simp [lookupEntries, eraseEntries]
  | cons e rest ih =>
    obtain ⟨a, st⟩ := e
    by_cases hep : a = p
    · subst hep
      simp [eraseEntries, ih]
    · simp [eraseEntries, hep, lookupEntries, ih]

theorem FS.lookup_insert_self (fs : FS) (p : FPath) (st : FileState) :
    (fs.insert p st).lookup p = some st := by
  simp [FS.insert, FS.lookup, lookupEntries]

theorem FS.lookup_insert_ne (fs : FS) (p q : FPath) (st : FileState)
    (hne : q ≠ p) : (fs.insert p st).lookup q = fs.lookup q := by
  simp only [FS.insert, FS.lookup, FS.erase, lookupEntries]
  rw [if_neg (by simpa using Ne.symm hne)]
  exact lookupEntries_erase_ne fs.entries p q hne

theorem FS.lookup_erase_self (fs : FS) (p : FPath) :
    (fs.erase p).lookup p = none := by
  simp only [FS.erase, FS.lookup]
  exact lookupEntries_erase_self fs.entries p

theorem FS.lookup_erase_ne (fs : FS) (p q : FPath) (hne : q ≠ p) :
    (fs.erase p).lookup q = fs.lookup q := by
  simp only [FS.erase, FS.lookup]
  exact lookupEntries_erase_ne fs.entries p q hne

/-- The temporary sibling path is never the target path itself. -/
theorem tmpPath_ne (p : FPath) : tmpPath p ≠ p := by
  intro h
  have hlen : (tmpPath p).length = p.length := by rw [h]
  rw [tmpPath, String.length_append,
    show (".tmp" : String).length = 4 from rfl] at hlen
  omega

/-! Shape lemmas: every primitive appends exactly its own event to the trace
and advances the counter by one; the read-only primitives never change the
filesystem. -/

theorem openRW_shape (env : Env) (w : World) (p : FPath) :
    (openRW env w p).2.trace = w.trace ++ [Event.openRW p] ∧
    (openRW env w p).2.ctr = w.ctr + 1 ∧
    (openRW env w p).2.fs = w.fs := by
  unfold openRW record
  split
  · exact ⟨rfl, rfl, rfl⟩
  · split
    · exact ⟨rfl, rfl, rfl⟩
    · split
      · exact ⟨rfl, rfl, rfl⟩
      · exact ⟨rfl, rfl, rfl⟩

theorem openRead_shape (env : Env) (w : World) (p : FPath) :
    (openRead env w p).2.trace = w.trace ++ [Event.openRead p] ∧
    (openRead env w p).2.ctr = w.ctr + 1 ∧
    (openRead env w p).2.fs = w.fs := by
  unfold openRead record
  split
  · exact ⟨rfl, rfl, rfl⟩
  · split
    · exact ⟨rfl, rfl, rfl⟩
    · split
      · exact ⟨rfl, rfl, rfl⟩
      · exact ⟨rfl, rfl, rfl⟩

theorem openRWCreate_shape (env : Env) (w : World) (p : FPath) :
    (openRWCreate env w p).2.trace = w.trace ++ [Event.openRWCreate p] ∧
    (openRWCreate env w p).2.ctr = w.ctr + 1 := by
  unfold openRWCreate record
  split
  · exact ⟨rfl, rfl⟩
  · split
    · exact ⟨rfl, rfl⟩
    · split
      · exact ⟨rfl, rfl⟩
      · exact ⟨rfl, rfl⟩

theorem readToEnd_shape (env : Env) (w : World) (h : FileHandle) :
    (readToEnd env w h).2.trace = w.trace ++ [Event.readToEnd] ∧
    (readToEnd env w h).2.ctr = w.ctr + 1 ∧
    (readToEnd env w h).2.fs = w.fs := by
  unfold readToEnd record
  split
  · exact ⟨rfl, rfl, rfl⟩
  · split
    · exact ⟨rfl, rfl, rfl⟩
    · exact ⟨rfl, rfl, rfl⟩

theorem closeF_shape (w : World) (h : FileHandle) :
    (closeF w h).trace = w.trace ++ [Event.closeF h.path] ∧
    (closeF w h).ctr = w.ctr ∧
    (closeF w h).fs = w.fs :=
  ⟨rfl, rfl, rfl⟩


/-! Claim theorems. -/

/-- C7: the Memory backend's `read` and `write` always return `Ok` (read
returning the stored bytes, write returning unit), and the backend's
associated error type (`Infallible`) is uninhabited, so the error branch is
unreachable. -/
theorem claim_C7_memory_never_fails :
    (∀ m : Memory, (Memory.read m).1 = .ok m.data) ∧
    (∀ (m : Memory) (data : Bytes), (Memory.write m data).1 = .ok ()) ∧
    IsEmpty Memory.Error :=
  ⟨fun _ => rfl, fun _ _ => rfl, ⟨fun e => Empty.elim e⟩⟩

/-- C8: for every Memory backend holding byte sequence `S`, `take` returns
exactly `S` and leaves the backend empty, so an immediately following `read`
returns an empty buffer. -/
theorem claim_C8_memory_take (m : Memory) :
    (Memory.take m).1 = m.data ∧
    (Memory.take m).2 = ⟨[]⟩ ∧
    (Memory.read (Memory.take m).2).1 = .ok [] :=
  ⟨rfl, rfl, rfl⟩

/-- C10: constructing a Memory backend from a byte buffer `b` via the `From`
conversion and reading returns `Ok b` and leaves the stored sequence equal to
`b` (read hands out a copy), so a repeated read returns `b` again. -/
theorem claim_C10_memory_from_read (b : Bytes) :
    (Memory.read (Memory.fromBuf b)).1 = .ok b ∧
    (Memory.read (Memory.fromBuf b)).2 = Memory.fromBuf b ∧
    (Memory.read (Memory.read (Memory.fromBuf b)).2).1 = .ok b :=
  ⟨rfl, rfl, rfl⟩

/-- C1 counterexample: the claim fails on the code. With a transient
(`Interrupted`, not `NotFound`) failure of the initial open on an existing
file `"db"`, `File::from_path_or_create` propagates the error, but
`FilePath::from_path_or_create` attempts creation and returns `Ok` with
existence flag `false`; and with a `PermissionDenied` file, the trace of
`FilePath::from_path_or_create` shows the creation open being attempted even
though the initial failure was not `NotFound`. -/
theorem claim_C1_counterexample :
    (File.from_path_or_create envInterrupt wOne "db").1 =
      .error ⟨ErrorKind.interrupted⟩ ∧
    (FilePath.from_path_or_create envInterrupt wOne "db").1 =
      .ok (⟨"db"⟩, false) ∧
    (openRW envNone wDenied "db").1 = .error ⟨ErrorKind.permissionDenied⟩ ∧
    Event.openRWCreate "db" ∈
      (FilePath.from_path_or_create envNone wDenied "db").2.trace ∧
    Event.openRWCreate "db" ∉
      (File.from_path_or_create envNone wDenied "db").2.trace :=
  ⟨rfl, rfl, rfl, by decide, by decide⟩

/-- C1 amended: `FilePath::from_path_or_create` takes the create-fallback
whenever the initial open fails for any reason (the source tests only
`is_ok`, never the error kind): on any initial-open failure the creation
open is attempted, the initial error is discarded, and the overall result is
the creation attempt's outcome (existence flag `false` on its success, its
own error otherwise) — unlike `File::from_path_or_create`, which creates
only on `NotFound`. -/
theorem claim_C1_amended (env : Env) (w : World) (path : FPath) (e : IOErr) :
    (openRW env w path).1 = .error e →
    Event.openRWCreate path ∈ (FilePath.from_path_or_create env w path).2.trace ∧
    (∀ h2 w2, openRWCreate env (openRW env w path).2 path = (.ok h2, w2) →
      FilePath.from_path_or_create env w path = (.ok (⟨path⟩, false), closeF w2 h2)) ∧
    (∀ e2 w2, openRWCreate env (openRW env w path).2 path = (.error e2, w2) →
      FilePath.from_path_or_create env w path = (.error e2, w2)) := by
  cases hp : openRW env w path with
  | mk r1 W2 =>
    intro h
    simp only at h
    subst h
    refine ⟨?_, ?_, ?_⟩
    · cases hc : openRWCreate env W2 path with
      | mk r2 w2 =>
        have htr := (openRWCreate_shape env W2 path).1
        rw [hc] at htr
        simp only at htr
        cases r2 <;>
          simp [FilePath.from_path_or_create, hp, hc, closeF, htr]
    · intro h2 w2 hc
      simp only at hc
      simp only [FilePath.from_path_or_create, hp, hc]
    · intro e2 w2 hc
      simp only at hc
      simp only [FilePath.from_path_or_create, hp, hc]

/-- C1 witness: the amended behaviour at the concrete permission-denied
world. -/
theorem claim_C1_witness :
    Event.openRWCreate "db" ∈
      (FilePath.from_path_or_create envNone wDenied "db").2.trace ∧
    (∀ h2 w2,
      openRWCreate envNone (openRW envNone wDenied "db").2 "db" = (.ok h2, w2) →
      FilePath.from_path_or_create envNone wDenied "db" =
        (.ok (⟨"db"⟩, false), closeF w2 h2)) ∧
    (∀ e2 w2,
      openRWCreate envNone (openRW envNone wDenied "db").2 "db" = (.error e2, w2) →
      FilePath.from_path_or_create envNone wDenied "db" = (.error e2, w2)) :=
  claim_C1_amended envNone wDenied "db" ⟨ErrorKind.permissionDenied⟩ rfl

/-- Characterization of a fault-free run of the write protocol: under
`writeOkConds` the result is `Ok` and the final world is exactly the staged
filesystem, the five protocol events appended in order, and four injectable
calls consumed. -/
theorem filePath_write_ok_char (env : Env) (w : World) (fp : FilePath)
    (data : Bytes) (hc : writeOkConds env w fp) :
    FilePath.write env w fp data =
      (.ok (), ⟨writeFinalFS w fp data, w.trace ++ protocolEvents fp data,
                w.ctr + 4⟩) := by
  obtain ⟨h0, hop, h1, h2, h3⟩ := hc
  have e2 : w.ctr + 1 + 1 = w.ctr + 2 := rfl
  have e3 : w.ctr + 2 + 1 = w.ctr + 3 := rfl
  have e4 : w.ctr + 3 + 1 = w.ctr + 4 := rfl
  cases hl : w.fs.lookup (tmpPath fp.path) with
  | none =>
    simp [FilePath.write, openWCT, writeAll, syncAll, renameF, closeF, record,
      protocolEvents, writeFinalFS, h0, h1, h2, h3, e2, e3, e4, hl,
      FS.lookup_insert_self]
  | some st =>
    have hoe := hop st hl
    simp [FilePath.write, openWCT, writeAll, syncAll, renameF, closeF, record,
      protocolEvents, writeFinalFS, h0, h1, h2, h3, e2, e3, e4, hl, hoe,
      FS.lookup_insert_self]

/-- Write protocol, failure at the temporary-open call (injected). -/
theorem filePath_write_errA (env : Env) (w : World) (fp : FilePath)
    (data : Bytes) (k : ErrorKind) (h0 : env.inj w.ctr = some k) :
    FilePath.write env w fp data =
      (.error ⟨k⟩,
       ⟨w.fs, w.trace ++ [Event.openWCT (tmpPath fp.path)], w.ctr + 1⟩) := by
  simp [FilePath.write, openWCT, record, h0]

/-- Write protocol, failure at the temporary-open call (unopenable existing
temporary file). -/
theorem filePath_write_errB (env : Env) (w : World) (fp : FilePath)
    (data : Bytes) (st : FileState) (k : ErrorKind)
    (h0 : env.inj w.ctr = none)
    (hl : w.fs.lookup (tmpPath fp.path) = some st)
    (he : st.openErr = some k) :
    FilePath.write env w fp data =
      (.error ⟨k⟩,
       ⟨w.fs, w.trace ++ [Event.openWCT (tmpPath fp.path)], w.ctr + 1⟩) := by
  simp [FilePath.write, openWCT, record, h0, hl, he]

/-- Write protocol, failure at the `write_all` call. -/
theorem filePath_write_errC (env : Env) (w : World) (fp : FilePath)
    (data : Bytes) (k : ErrorKind)
    (h0 : env.inj w.ctr = none)
    (hop : ∀ st, w.fs.lookup (tmpPath fp.path) = some st → st.openErr = none)
    (h1 : env.inj (w.ctr + 1) = some k) :
    FilePath.write env w fp data =
      (.error ⟨k⟩,
       ⟨w.fs.insert (tmpPath fp.path) ⟨[], none⟩,
        w.trace ++ [Event.openWCT (tmpPath fp.path), Event.writeAll data,
                    Event.closeF (tmpPath fp.path)], w.ctr + 2⟩) := by
  cases hl : w.fs.lookup (tmpPath fp.path) with
  | none =>
    simp [FilePath.write, openWCT, writeAll, closeF, record, h0, h1, hl]
  | some st =>
    have hoe := hop st hl
    simp [FilePath.write, openWCT, writeAll, closeF, record, h0, h1, hl, hoe]

/-- Write protocol, failure at the `sync_all` call. -/
theorem filePath_write_errD (env : Env) (w : World) (fp : FilePath)
    (data : Bytes) (k : ErrorKind)
    (h0 : env.inj w.ctr = none)
    (hop : ∀ st, w.fs.lookup (tmpPath fp.path) = some st → st.openErr = none)
    (h1 : env.inj (w.ctr + 1) = none)
    (h2 : env.inj (w.ctr + 2) = some k) :
    FilePath.write env w fp data =
      (.error ⟨k⟩,
       ⟨(w.fs.insert (tmpPath fp.path) ⟨[], none⟩).insert (tmpPath fp.path)
          ⟨data, none⟩,
        w.trace ++ [Event.openWCT (tmpPath fp.path), Event.writeAll data,
                    Event.syncAll, Event.closeF (tmpPath fp.path)],
        w.ctr + 3⟩) := by
  have e2 : w.ctr + 1 + 1 = w.ctr + 2 := rfl
  have e3 : w.ctr + 2 + 1 = w.ctr + 3 := rfl
  cases hl : w.fs.lookup (tmpPath fp.path) with
  | none =>
    simp [FilePath.write, openWCT, writeAll, syncAll, closeF, record,
      h0, h1, h2, e2, e3, hl, FS.lookup_insert_self]
  | some st =>
    have hoe := hop st hl
    simp [FilePath.write, openWCT, writeAll, syncAll, closeF, record,
      h0, h1, h2, e2, e3, hl, hoe, FS.lookup_insert_self]

/-- Write protocol, failure at the final `rename` call. -/
theorem filePath_write_errE (env : Env) (w : World) (fp : FilePath)
    (data : Bytes) (k : ErrorKind)
    (h0 : env.inj w.ctr = none)
    (hop : ∀ st, w.fs.lookup (tmpPath fp.path) = some st → st.openErr = none)
    (h1 : env.inj (w.ctr + 1) = none)
    (h2 : env.inj (w.ctr + 2) = none)
    (h3 : env.inj (w.ctr + 3) = some k) :
    FilePath.write env w fp data =
      (.error ⟨k⟩,
       ⟨(w.fs.insert (tmpPath fp.path) ⟨[], none⟩).insert (tmpPath fp.path)
          ⟨data, none⟩,
        w.trace ++ protocolEvents fp data, w.ctr + 4⟩) := by
  have e2 : w.ctr + 1 + 1 = w.ctr + 2 := rfl
  have e3 : w.ctr + 2 + 1 = w.ctr + 3 := rfl
  have e4 : w.ctr + 3 + 1 = w.ctr + 4 := rfl
  cases hl : w.fs.lookup (tmpPath fp.path) with
  | none =>
    simp [FilePath.write, openWCT, writeAll, syncAll, renameF, closeF, record,
      protocolEvents, h0, h1, h2, h3, e2, e3, e4, hl, FS.lookup_insert_self]
  | some st =>
    have hoe := hop st hl
    simp [FilePath.write, openWCT, writeAll, syncAll, renameF, closeF, record,
      protocolEvents, h0, h1, h2, h3, e2, e3, e4, hl, hoe,
      FS.lookup_insert_self]

/-- The write protocol returns `Ok` exactly when every one of its steps
succeeds. -/
theorem filePath_write_ok_iff (env : Env) (w : World) (fp : FilePath)
    (data : Bytes) :
    (FilePath.write env w fp data).1 = .ok () ↔ writeOkConds env w fp := by
  constructor
  · intro h
    cases h0 : env.inj w.ctr with
    | some k =>
      rw [filePath_write_errA env w fp data k h0] at h
      simp at h
    | none =>
      by_cases hop : ∀ st, w.fs.lookup (tmpPath fp.path) = some st →
          st.openErr = none
      · cases h1 : env.inj (w.ctr + 1) with
        | some k =>
          rw [filePath_write_errC env w fp data k h0 hop h1] at h
          simp at h
        | none =>
          cases h2 : env.inj (w.ctr + 2) with
          | some k =>
            rw [filePath_write_errD env w fp data k h0 hop h1 h2] at h
            simp at h
          | none =>
            cases h3 : env.inj (w.ctr + 3) with
            | some k =>
              rw [filePath_write_errE env w fp data k h0 hop h1 h2 h3] at h
              simp at h
            | none => exact ⟨h0, hop, h1, h2, h3⟩
      · push_neg at hop
        obtain ⟨st, hl, hne⟩ := hop
        cases he : st.openErr with
        | none => exact absurd he hne
        | some k =>
          rw [filePath_write_errB env w fp data st k h0 hl he] at h
          simp at h
  · intro hc
    rw [filePath_write_ok_char env w fp data hc]

/-- C3: `FilePath::write` performs the atomic replace protocol in this exact
step order — derive the temporary path by appending the fixed `".tmp"`
suffix, open/create/truncate it, write the full buffer, sync it, close it,
rename it onto the target — and returns success exactly when every step
succeeds. -/
theorem claim_C3_write_protocol (env : Env) (w : World) (fp : FilePath)
    (data : Bytes) :
    tmpPath fp.path = fp.path ++ ".tmp" ∧
    ((FilePath.write env w fp data).1 = .ok () →
      (FilePath.write env w fp data).2.trace =
        w.trace ++ protocolEvents fp data) ∧
    ((FilePath.write env w fp data).1 = .ok () ↔ writeOkConds env w fp) := by
  refine ⟨rfl, ?_, filePath_write_ok_iff env w fp data⟩
  intro h
  rw [filePath_write_ok_char env w fp data
    ((filePath_write_ok_iff env w fp data).1 h)]

/-- C3 witness: the protocol trace of a concrete successful write. -/
theorem claim_C3_witness :
    (FilePath.write envNone wEmpty ⟨"db"⟩ [1, 2]).2.trace =
      wEmpty.trace ++ protocolEvents ⟨"db"⟩ [1, 2] :=
  (claim_C3_write_protocol envNone wEmpty ⟨"db"⟩ [1, 2]).2.1 rfl

/-- C4: if `FilePath::write` fails at any step before the final rename is
attempted, the target path's entry (existence and content) is exactly as it
was before the call. -/
theorem claim_C4_rollback (env : Env) (w : World) (fp : FilePath)
    (data : Bytes) (e : IOErr)
    (h : (FilePath.write env w fp data).1 = .error e)
    (hr : Event.renameF (tmpPath fp.path) fp.path ∉
      ((FilePath.write env w fp data).2.trace.drop w.trace.length)) :
    (FilePath.write env w fp data).2.fs.lookup fp.path = w.fs.lookup fp.path := by
  have hne : fp.path ≠ tmpPath fp.path := Ne.symm (tmpPath_ne fp.path)
  cases h0 : env.inj w.ctr with
  | some k =>
    rw [filePath_write_errA env w fp data k h0]
  | none =>
    by_cases hop : ∀ st, w.fs.lookup (tmpPath fp.path) = some st →
        st.openErr = none
    · cases h1 : env.inj (w.ctr + 1) with
      | some k =>
        rw [filePath_write_errC env w fp data k h0 hop h1]
        exact FS.lookup_insert_ne _ _ _ _ hne
      | none =>
        cases h2 : env.inj (w.ctr + 2) with
        | some k =>
          rw [filePath_write_errD env w fp data k h0 hop h1 h2]
          exact (FS.lookup_insert_ne _ _ _ _ hne).trans
            (FS.lookup_insert_ne _ _ _ _ hne)
        | none =>
          cases h3 : env.inj (w.ctr + 3) with
          | some k =>
            exfalso
            rw [filePath_write_errE env w fp data k h0 hop h1 h2 h3] at hr
            simp [protocolEvents, List.drop_left] at hr
          | none =>
            exfalso
            rw [filePath_write_ok_char env w fp data ⟨h0, hop, h1, h2, h3⟩] at h
            simp at h
    · push_neg at hop
      obtain ⟨st, hl, hnne⟩ := hop
      cases he : st.openErr with
      | none => exact absurd he hnne
      | some k =>
        rw [filePath_write_errB env w fp data st k h0 hl he]

/-- C4 witness: a transiently failed open of the temporary file leaves the
target entry untouched. -/
theorem claim_C4_witness :
    (FilePath.write envInterrupt wOne ⟨"db"⟩ [9]).2.fs.lookup "db" =
      wOne.fs.lookup "db" :=
  claim_C4_rollback envInterrupt wOne ⟨"db"⟩ [9] ⟨ErrorKind.interrupted⟩ rfl
    (by decide)

/-- C6: after any successful `FilePath::write`, no file exists at the
temporary sibling path `<path>.tmp`. -/
theorem claim_C6_no_orphan_on_success (env : Env) (w : World) (fp : FilePath)
    (data : Bytes) (h : (FilePath.write env w fp data).1 = .ok ()) :
    (FilePath.write env w fp data).2.fs.lookup (tmpPath fp.path) = none := by
  rw [filePath_write_ok_char env w fp data
    ((filePath_write_ok_iff env w fp data).1 h)]
  simp [writeFinalFS, FS.lookup_erase_self]

/-- C6 witness: a concrete successful write leaves no `.tmp` sibling. -/
theorem claim_C6_witness :
    (FilePath.write envNone wEmpty ⟨"db"⟩ [1, 2]).2.fs.lookup
      (tmpPath "db") = none :=
  claim_C6_no_orphan_on_success envNone wEmpty ⟨"db"⟩ [1, 2] rfl

/-- Fault-free successful `FilePath::read`: returns the file's full contents
and leaves the filesystem untouched. -/
theorem filePath_read_ok_char (env : Env) (w : World) (fp : FilePath)
    (st : FileState) (h0 : env.inj w.ctr = none)
    (hl : w.fs.lookup fp.path = some st) (he : st.openErr = none)
    (h1 : env.inj (w.ctr + 1) = none) :
    FilePath.read env w fp =
      (.ok st.contents,
       ⟨w.fs,
        w.trace ++ [Event.openRead fp.path, Event.readToEnd,
                    Event.closeF fp.path],
        w.ctr + 2⟩) := by
  have e2 : w.ctr + 1 + 1 = w.ctr + 2 := rfl
  simp [FilePath.read, openRead, readToEnd, closeF, record, h0, h1, hl, he, e2]

/-- `FilePath::read` never changes the filesystem, whether it succeeds or
fails at any of its calls. -/
theorem filePath_read_fs (env : Env) (w : World) (fp : FilePath) :
    (FilePath.read env w fp).2.fs = w.fs := by
  cases h0 : env.inj w.ctr with
  | some k => simp [FilePath.read, openRead, record, h0]
  | none =>
    cases hl : w.fs.lookup fp.path with
    | none => simp [FilePath.read, openRead, record, h0, hl]
    | some st =>
      cases he : st.openErr with
      | some k => simp [FilePath.read, openRead, record, h0, hl, he]
      | none =>
        cases h1 : env.inj (w.ctr + 1) with
        | some k =>
          simp [FilePath.read, openRead, readToEnd, closeF, record,
            h0, hl, he, h1]
        | none =>
          rw [filePath_read_ok_char env w fp st h0 hl he h1]

/-- C9: `FilePath::read` never creates or modifies any file — on every
execution, success or error, the filesystem is exactly as before — and on
success it performed exactly open-read-only, read-to-end, close, returning
the file's full contents. -/
theorem claim_C9_read_pure (env : Env) (w : World) (fp : FilePath) :
    (FilePath.read env w fp).2.fs = w.fs ∧
    (∀ buf, (FilePath.read env w fp).1 = .ok buf →
      ∃ st, w.fs.lookup fp.path = some st ∧ st.openErr = none ∧
        buf = st.contents ∧
        (FilePath.read env w fp).2.trace =
          w.trace ++ [Event.openRead fp.path, Event.readToEnd,
                      Event.closeF fp.path]) := by
  refine ⟨filePath_read_fs env w fp, ?_⟩
  intro buf hb
  cases h0 : env.inj w.ctr with
  | some k => simp [FilePath.read, openRead, record, h0] at hb
  | none =>
    cases hl : w.fs.lookup fp.path with
    | none => simp [FilePath.read, openRead, record, h0, hl] at hb
    | some st =>
      cases he : st.openErr with
      | some k => simp [FilePath.read, openRead, record, h0, hl, he] at hb
      | none =>
        cases h1 : env.inj (w.ctr + 1) with
        | some k =>
          simp [FilePath.read, openRead, readToEnd, closeF, record,
            h0, hl, he, h1] at hb
        | none =>
          have hch := filePath_read_ok_char env w fp st h0 hl he h1
          rw [hch] at hb
          simp at hb
          exact ⟨st, rfl, he, hb.symm, by rw [hch]⟩

/-- C9 witness: a concrete read of `"db"` leaves the filesystem unchanged
and returns its contents through the open-read-close call sequence. -/
theorem claim_C9_witness :
    (FilePath.read envNone wOne ⟨"db"⟩).2.fs = wOne.fs ∧
    (∃ st, wOne.fs.lookup "db" = some st ∧ st.openErr = none ∧
      [1, 2, 3] = st.contents ∧
      (FilePath.read envNone wOne ⟨"db"⟩).2.trace =
        wOne.trace ++ [Event.openRead "db", Event.readToEnd,
                       Event.closeF "db"]) :=
  ⟨(claim_C9_read_pure envNone wOne ⟨"db"⟩).1,
   (claim_C9_read_pure envNone wOne ⟨"db"⟩).2 [1, 2, 3] rfl⟩

/-- Fault-free successful `File::write` over an existing handle: the file
ends up holding exactly `data`, the handle cursor past it. -/
theorem file_write_ok_char (w : World) (f : File) (B : Bytes)
    (st : FileState) (hl : w.fs.lookup f.handle.path = some st) :
    File.write envNone w f B =
      (.ok (), ⟨⟨f.handle.path, B.length⟩⟩,
       ⟨(w.fs.insert f.handle.path ⟨[], st.openErr⟩).insert f.handle.path
          ⟨B, st.openErr⟩,
        w.trace ++ [Event.seekStart, Event.setLen 0, Event.writeAll B,
                    Event.syncAll],
        w.ctr + 4⟩) := by
  have e2 : w.ctr + 1 + 1 = w.ctr + 2 := rfl
  have e3 : w.ctr + 2 + 1 = w.ctr + 3 := rfl
  have e4 : w.ctr + 3 + 1 = w.ctr + 4 := rfl
  simp [File.write, seekStart, setLen, writeAll, syncAll, record, envNone,
    hl, FS.lookup_insert_self, e2, e3, e4]

/-- Fault-free `File::read` over an existing handle returns the file's full
contents (it seeks to the start first). -/
theorem file_read_ok (w : World) (f : File) (st : FileState)
    (hl : w.fs.lookup f.handle.path = some st) :
    (File.read envNone w f).1 = .ok st.contents := by
  simp [File.read, seekStart, readToEnd, record, envNone, hl]

/-- C2: for every backend variant, a successful `write(B)` followed by
`read()` returns exactly `B` (fault-free environment, no interleaved
operations on the medium). -/
theorem claim_C2_roundtrip :
    (∀ (m : Memory) (B : Bytes),
      (Memory.read (Memory.write m B).2).1 = .ok B) ∧
    (∀ (w : World) (f : File) (B : Bytes),
      (File.write envNone w f B).1 = .ok () →
      (File.read envNone (File.write envNone w f B).2.2
        (File.write envNone w f B).2.1).1 = .ok B) ∧
    (∀ (w : World) (fp : FilePath) (B : Bytes),
      (FilePath.write envNone w fp B).1 = .ok () →
      (FilePath.read envNone (FilePath.write envNone w fp B).2 fp).1 =
        .ok B) := by
  refine ⟨fun _ _ => rfl, ?_, ?_⟩
  · intro w f B h
    cases hl : w.fs.lookup f.handle.path with
    | none =>
      exfalso
      simp [File.write, seekStart, setLen, record, envNone, hl] at h
    | some st =>
      rw [file_write_ok_char w f B st hl]
      exact file_read_ok _ _ ⟨B, st.openErr⟩ (FS.lookup_insert_self _ _ _)
  · intro w fp B h
    have hc := (filePath_write_ok_iff envNone w fp B).1 h
    rw [filePath_write_ok_char envNone w fp B hc]
    have hlk : (writeFinalFS w fp B).lookup fp.path = some ⟨B, none⟩ := by
      rw [writeFinalFS, FS.lookup_erase_ne _ _ _ (Ne.symm (tmpPath_ne fp.path)),
        FS.lookup_insert_self]
    rw [filePath_read_ok_char envNone _ fp ⟨B, none⟩ rfl hlk rfl rfl]

/-- C2 witness: concrete round trips through all three backends. -/
theorem claim_C2_witness :
    (Memory.read (Memory.write ⟨[9]⟩ [1, 2]).2).1 = .ok [1, 2] ∧
    (File.read envNone (File.write envNone wOne ⟨⟨"db", 0⟩⟩ [4, 5]).2.2
      (File.write envNone wOne ⟨⟨"db", 0⟩⟩ [4, 5]).2.1).1 = .ok [4, 5] ∧
    (FilePath.read envNone (FilePath.write envNone wEmpty ⟨"db"⟩ [7]).2
      ⟨"db"⟩).1 = .ok [7] :=
  ⟨claim_C2_roundtrip.1 ⟨[9]⟩ [1, 2],
   claim_C2_roundtrip.2.1 wOne ⟨⟨"db", 0⟩⟩ [4, 5] rfl,
   claim_C2_roundtrip.2.2 wEmpty ⟨"db"⟩ [7] rfl⟩

/-- C5: both open-or-create constructors, run fault-free: on an absent path
they report existence flag `false` and leave a newly created zero-byte file;
on an existing openable path they report `true` and leave the filesystem —
in particular the file's content — untouched. -/
theorem claim_C5_existence_flag :
    (∀ (w : World) (p : FPath), w.fs.lookup p = none →
      (File.from_path_or_create envNone w p).1 = .ok (⟨⟨p, 0⟩⟩, false) ∧
      (File.from_path_or_create envNone w p).2.fs.lookup p =
        some ⟨[], none⟩) ∧
    (∀ (w : World) (p : FPath) (st : FileState),
      w.fs.lookup p = some st → st.openErr = none →
      (File.from_path_or_create envNone w p).1 = .ok (⟨⟨p, 0⟩⟩, true) ∧
      (File.from_path_or_create envNone w p).2.fs = w.fs) ∧
    (∀ (w : World) (p : FPath), w.fs.lookup p = none →
      (FilePath.from_path_or_create envNone w p).1 = .ok (⟨p⟩, false) ∧
      (FilePath.from_path_or_create envNone w p).2.fs.lookup p =
        some ⟨[], none⟩) ∧
    (∀ (w : World) (p : FPath) (st : FileState),
      w.fs.lookup p = some st → st.openErr = none →
      (FilePath.from_path_or_create envNone w p).1 = .ok (⟨p⟩, true) ∧
      (FilePath.from_path_or_create envNone w p).2.fs = w.fs) := by
  refine ⟨?_, ?_, ?_, ?_⟩
  · intro w p hl
    constructor <;>
      simp [File.from_path_or_create, File.from_path, openRW, openRWCreate,
        record, envNone, hl, FS.lookup_insert_self]
  · intro w p st hl he
    constructor <;>
      simp [File.from_path_or_create, File.from_path, openRW, record,
        envNone, hl, he]
  · intro w p hl
    constructor <;>
      simp [FilePath.from_path_or_create, openRW, openRWCreate, closeF,
        record, envNone, hl, FS.lookup_insert_self]
  · intro w p st hl he
    constructor <;>
      simp [FilePath.from_path_or_create, openRW, closeF, record, envNone,
        hl, he]

/-- C5 witness: creating at an absent path and probing an existing one. -/
theorem claim_C5_witness :
    ((File.from_path_or_create envNone wEmpty "db").1 =
        .ok (⟨⟨"db", 0⟩⟩, false) ∧
     (File.from_path_or_create envNone wEmpty "db").2.fs.lookup "db" =
        some ⟨[], none⟩) ∧
    ((FilePath.from_path_or_create envNone wOne "db").1 =
        .ok (⟨"db"⟩, true) ∧
     (FilePath.from_path_or_create envNone wOne "db").2.fs = wOne.fs) :=
  ⟨claim_C5_existence_flag.1 wEmpty "db" rfl,
   claim_C5_existence_flag.2.2.2 wOne "db" ⟨[1, 2, 3], none⟩ rfl rfl⟩
